import Mathlib

/-!
# Verification of mangum's WebSocket connection-state handling

A shallow embedding of the WebSocket connection-state code of the
`mangum` repository (`mangum/websockets.py`, `mangum/backends/dynamodb.py`,
and the `handle_ws` branches of `mangum/adapter.py`), together with proofs
about it.

Modelling conventions:
* Python values that appear in connection scopes are modelled by `PyVal`
  (strings, bytes, ints, bools, `None`, lists, tuples, dicts with string
  keys).  Python dicts always have unique keys; dict operations below keep
  the association lists they are modelled by in that form.
* `json.dumps` followed by `json.loads` is modelled by `jsonNorm`: the
  serialized text is identified with the JSON value it parses back to.
  `json.dumps` raises `TypeError` exactly on non-serializable values
  (bytes), and canonicalizes tuples to lists; `json.loads` of a dumped
  value is the identity on the normal form.  This matches the behaviour of
  Python's `json` module on the value shapes that occur in ASGI scopes.
* The DynamoDB table is modelled by an association list from connection id
  to the stored serialized scope, and the reachability of the DynamoDB
  service by a boolean `mediumOk` passed to each operation; when it is
  `false` the boto3 call raises `ClientError`.
* Python exceptions are modelled by the error type `Err`; an operation
  that can raise returns `Except Err`.  Where the caller mutates state,
  the post-state is returned alongside (the state is unchanged when an
  exception escapes, as in Python).
-/

/-- A Python value as it occurs in connection scopes and configuration
dicts: `str`, `bytes`, `int`, `bool`, `None`, `list`, `tuple`, and `dict`
with string keys. -/
inductive PyVal where
  | str (s : String)
  | bytes (b : String)
  | int (n : Int)
  | bool (b : Bool)
  | none
  | list (xs : List PyVal)
  | tuple (xs : List PyVal)
  | dict (kvs : List (String × PyVal))

mutual

/-- Python `==` on `PyVal` (structural; `str` and `bytes` never compare
equal, mirroring Python 3). -/
def PyVal.beq : PyVal → PyVal → Bool
  | .str a, .str b => a == b
  | .bytes a, .bytes b => a == b
  | .int a, .int b => a == b
  | .bool a, .bool b => a == b
  | .none, .none => true
  | .list a, .list b => PyVal.beqList a b
  | .tuple a, .tuple b => PyVal.beqList a b
  | .dict a, .dict b => PyVal.beqDict a b
  | _, _ => false

/-- Elementwise `PyVal.beq` on lists. -/
def PyVal.beqList : List PyVal → List PyVal → Bool
  | [], [] => true
  | x :: xs, y :: ys => PyVal.beq x y && PyVal.beqList xs ys
  | _, _ => false

/-- Entrywise `PyVal.beq` on dict entries. -/
def PyVal.beqDict : List (String × PyVal) → List (String × PyVal) → Bool
  | [], [] => true
  | (k, v) :: xs, (l, w) :: ys => k == l && PyVal.beq v w && PyVal.beqDict xs ys
  | _, _ => false

end

/-- Python truthiness of a `PyVal` (empty containers, empty strings, `0`,
`False` and `None` are falsy). -/
def pyTruthy : PyVal → Bool
  | .str s => !(s == "")
  | .bytes b => !(b == "")
  | .int n => !(n == 0)
  | .bool b => b
  | .none => false
  | .list xs => !xs.isEmpty
  | .tuple xs => !xs.isEmpty
  | .dict kvs => !kvs.isEmpty

/-- Python `d[k]` on a dict (and `get_item` on the connection table):
the value of the first binding for `k`, if any. -/
def dictGet (k : String) : List (String × PyVal) → Option PyVal
  | [] => Option.none
  | (k', v) :: rest => if k = k' then some v else dictGet k rest

/-- Removal of every binding for `k` (Python `del` / DynamoDB
`delete_item`; a Python dict has at most one binding per key). -/
def dictDelete (k : String) : List (String × PyVal) → List (String × PyVal)
  | [] => []
  | (k', v) :: rest => if k' = k then dictDelete k rest else (k', v) :: dictDelete k rest

/-- Python `d[k] = v` on a dict: replace the value of the existing binding
in place, else append a new binding at the end (Python dicts preserve
insertion order). -/
def dictSet (k : String) (v : PyVal) : List (String × PyVal) → List (String × PyVal)
  | [] => [(k, v)]
  | (k', v') :: rest => if k' == k then (k', v) :: rest else (k', v') :: dictSet k v rest

/-- Python `d.pop(k)` with no default: `none` models the `KeyError` raised
when the key is absent; otherwise the value and the dict without that
binding.  Python dicts have unique keys, so filtering every binding for
`k` removes exactly the one binding. -/
def dictPop (k : String) (kvs : List (String × PyVal)) :
    Option (PyVal × List (String × PyVal)) :=
  match dictGet k kvs with
  | Option.none => Option.none
  | some v => some (v, dictDelete k kvs)

mutual

/-- `json.loads(json.dumps v)`: `Option.none` models the `TypeError`
raised by `json.dumps` on a non-serializable value (bytes); tuples are
canonicalized to lists; everything else round-trips to itself. -/
def jsonNorm : PyVal → Option PyVal
  | .str s => some (.str s)
  | .bytes _ => Option.none
  | .int n => some (.int n)
  | .bool b => some (.bool b)
  | .none => some .none
  | .list xs => (jsonNormList xs).map .list
  | .tuple xs => (jsonNormList xs).map .list
  | .dict kvs => (jsonNormDict kvs).map .dict

/-- `jsonNorm` mapped over a list, failing if any element fails. -/
def jsonNormList : List PyVal → Option (List PyVal)
  | [] => some []
  | x :: xs => do pure ((← jsonNorm x) :: (← jsonNormList xs))

/-- `jsonNorm` mapped over dict entries, failing if any value fails. -/
def jsonNormDict : List (String × PyVal) → Option (List (String × PyVal))
  | [] => some []
  | (k, v) :: xs => do pure ((k, ← jsonNorm v) :: (← jsonNormDict xs))

end

/-- The Python exceptions the embedded code can raise:
`mangum.exceptions.WebSocketError`, `botocore.exceptions.ClientError`
(with its error code and, when the caller inspects it, the HTTP status of
the response), `KeyError`, `TypeError` and `AttributeError`. -/
inductive Err where
  | websocketError (msg : String)
  | clientError (code : String) (httpStatus : Option Nat)
  | keyError (key : String)
  | typeError (msg : String)
  | attributeError (msg : String)
deriving DecidableEq

/-- The `ClientError` raised by `put_item` when its
`ConditionExpression="attribute_not_exists(connectionId)"` fails: the
store-level duplicate-connection error. -/
def duplicateConnection : Err :=
  .clientError "ConditionalCheckFailedException" (some 400)

/-- The `ClientError` raised by a boto3 call when the DynamoDB medium is
unreachable. -/
def backendUnavailable : Err := .clientError "ServiceUnavailable" (some 503)

/-- The `WebSocketError` raised by `DynamoDBBackend.fetch` when no item is
stored for the connection id. -/
def connectionNotFound (connection_id : String) : Err :=
  .websocketError ("Connection not found: " ++ connection_id)

/-- The DynamoDB table, keyed by `connectionId`; each item's
`initial_scope` attribute holds the serialized scope (see the `jsonNorm`
convention above). -/
abbrev Store := List (String × PyVal)

/-- `DynamoDBBackend.create` (`mangum/backends/dynamodb.py`):
`put_item` with `ConditionExpression="attribute_not_exists(connectionId)"`
— a single conditional write that stores the item when the id is absent
and raises `ClientError (ConditionalCheckFailedException)` when it is
already present, leaving the table unchanged. -/
def DynamoDBBackend.create (mediumOk : Bool) (connection_id : String)
    (initial_scope : PyVal) (st : Store) : (Except Err Unit) × Store :=
  if !mediumOk then (.error backendUnavailable, st)
  else if (dictGet connection_id st).isSome then (.error duplicateConnection, st)
  else (.ok (), (connection_id, initial_scope) :: st)

/-- `DynamoDBBackend.fetch` (`mangum/backends/dynamodb.py`): `get_item`;
the `KeyError` from the absent `"Item"` field is caught and re-raised as
`WebSocketError("Connection not found: ...")`.  Reads do not mutate the
table. -/
def DynamoDBBackend.fetch (mediumOk : Bool) (connection_id : String) (st : Store) :
    Except Err PyVal :=
  if !mediumOk then .error backendUnavailable
  else
    match dictGet connection_id st with
    | Option.none => .error (connectionNotFound connection_id)
    | some item => .ok item

/-- `DynamoDBBackend.delete` (`mangum/backends/dynamodb.py`):
`delete_item`, which succeeds whether or not the key is present. -/
def DynamoDBBackend.delete (mediumOk : Bool) (connection_id : String) (st : Store) :
    (Except Err Unit) × Store :=
  if !mediumOk then (.error backendUnavailable, st)
  else (.ok (), dictDelete connection_id st)

/-- Looking a key up after deleting every binding for it yields
nothing. -/
theorem dictGet_dictDelete_self (c : String) (st : List (String × PyVal)) :
    dictGet c (dictDelete c st) = Option.none := by
  induction st with
  | nil => rfl
  | cons p st ih =>
    obtain ⟨k, v⟩ := p
    by_cases h : k = c
    · simp [dictDelete, h, ih]
    · simp [dictDelete, dictGet, h, Ne.symm h, ih]

/-- Deleting an absent key leaves the table unchanged. -/
theorem dictDelete_eq_self_of_get_none (c : String) (st : List (String × PyVal))
    (h : dictGet c st = Option.none) :
    dictDelete c st = st := by
  induction st with
  | nil => rfl
  | cons p st ih =>
    obtain ⟨k, v⟩ := p
    by_cases hk : c = k
    · simp [dictGet, hk] at h
    · simp only [dictGet, if_neg hk] at h
      have hk' : ¬k = c := fun he => hk he.symm
      simp [dictDelete, hk', ih h]

/-- C2: for every connection id `c`, `create(c, s2)` when a scope `s` is
already stored under `c` fails with the duplicate-connection error of the
conditional write (a single `put_item` call, so there is no read-then-write
race window) and leaves the table — hence the previously stored scope `s` —
unchanged; it never silently overwrites. -/
theorem C2_create_duplicate (c : String) (s s2 : PyVal) (st : Store)
    (h : dictGet c st = some s) :
    DynamoDBBackend.create true c s2 st = (.error duplicateConnection, st) := by
  simp [DynamoDBBackend.create, h]

theorem C2_create_duplicate_witness :
    DynamoDBBackend.create true "abc" (PyVal.str "s2") [("abc", PyVal.str "s")]
      = (.error duplicateConnection, [("abc", PyVal.str "s")]) :=
  C2_create_duplicate "abc" (PyVal.str "s") (PyVal.str "s2")
    [("abc", PyVal.str "s")] (by rfl)

/-- C5: for every connection id `c` with no stored scope — never created,
or already deleted — `fetch c` fails with the connection-not-found error;
it returns an error, never a partial or empty scope record. -/
theorem C5_fetch_absent (c : String) (st : Store) :
    (dictGet c st = Option.none →
      DynamoDBBackend.fetch true c st = .error (connectionNotFound c)) ∧
    DynamoDBBackend.fetch true c (DynamoDBBackend.delete true c st).2
      = .error (connectionNotFound c) := by
  constructor
  · intro h
    simp [DynamoDBBackend.fetch, h]
  · simp [DynamoDBBackend.fetch, DynamoDBBackend.delete, dictGet_dictDelete_self]

theorem C5_fetch_absent_witness :
    DynamoDBBackend.fetch true "abc" [("other", PyVal.str "x")]
      = .error (connectionNotFound "abc") :=
  (C5_fetch_absent "abc" [("other", PyVal.str "x")]).1 (by rfl)

/-- C8: `delete` is idempotent — for every connection id `c`, `delete c`
succeeds on any table (in particular when no scope is stored under `c`),
`delete c` immediately after `delete c` also succeeds, and deleting an
already-absent connection succeeds without touching the table. -/
theorem C8_delete_idempotent (c : String) (st : Store) :
    (DynamoDBBackend.delete true c st).1 = .ok () ∧
    (DynamoDBBackend.delete true c (DynamoDBBackend.delete true c st).2).1 = .ok () ∧
    (dictGet c st = Option.none → DynamoDBBackend.delete true c st = (.ok (), st)) := by
  refine ⟨rfl, rfl, ?_⟩
  intro h
  simp [DynamoDBBackend.delete, dictDelete_eq_self_of_get_none c st h]

theorem C8_delete_idempotent_witness :
    DynamoDBBackend.delete true "abc" [("other", PyVal.str "x")]
      = (.ok (), [("other", PyVal.str "x")]) :=
  (C8_delete_idempotent "abc" [("other", PyVal.str "x")]).2.2 (by rfl)

/-- The two backend variants the `WebSocket` facade can select
(`mangum/backends/sqlite3.py` and `mangum/backends/dynamodb.py`). -/
inductive BackendSel where
  | sqlite3
  | dynamodb
deriving DecidableEq

/-- Python f-string formatting of the scalar values that can appear as a
`backend` tag; container and bytes reprs are not modelled (no claim
exercises them). -/
def pyFormat : PyVal → String
  | .str s => s
  | .int n => toString n
  | .bool true => "True"
  | .bool false => "False"
  | .none => "None"
  | _ => "<repr not modelled>"

/-- `WebSocket.__post_init__` (`mangum/websockets.py`): requires a
`ws_config`, pops its `"backend"` key — mutating the dict, with `KeyError`
when the key is absent — then dispatches on the tag.  The `"sqlite3"`
branch assigns the SQLite backend, but the `"dynamodb"` test is a separate
`if` statement (not `elif`), so its `else` also runs after the `"sqlite3"`
branch and raises; only the `"dynamodb"` tag survives.  Returns the
selected backend together with the mutated `ws_config`. -/
def WebSocket.postInit (ws_config : Option (List (String × PyVal))) :
    Except Err (BackendSel × List (String × PyVal)) :=
  match ws_config with
  | Option.none =>
    .error (.websocketError
      "A `ws_config` argument is required to configure WebSocket support.")
  | some cfg =>
    match dictPop "backend" cfg with
    | Option.none => .error (.keyError "backend")
    | some (backend, rest) =>
      -- if backend == "sqlite3": self._backend = SQLite3Backend(**self.ws_config)
      let _sqliteChoice : Option BackendSel :=
        if PyVal.beq backend (.str "sqlite3") then some .sqlite3 else Option.none
      -- if backend == "dynamodb": self._backend = DynamoDBBackend(**self.ws_config)
      -- else: raise WebSocketError(f"Invalid backend specified: ...")
      if PyVal.beq backend (.str "dynamodb") then .ok (.dynamodb, rest)
      else .error (.websocketError ("Invalid backend specified: " ++ pyFormat backend))

/-- `WebSocket.create` (`mangum/websockets.py`): `json.dumps` the initial
scope and store the serialized text under the connection id. -/
def WebSocket.create (mediumOk : Bool) (connection_id : String)
    (initial_scope : PyVal) (st : Store) : (Except Err Unit) × Store :=
  match jsonNorm initial_scope with
  | Option.none =>
    (.error (.typeError "Object of type bytes is not JSON serializable"), st)
  | some initial_scope_json =>
    DynamoDBBackend.create mediumOk connection_id initial_scope_json st

/-- The header re-encoding in `WebSocket.fetch`:
`[[k.encode(), v.encode()] for k, v in headers.items()]`; every value must
be a `str` (`AttributeError` otherwise, modelled as `Option.none`). -/
def encodeHeaderItems : List (String × PyVal) → Option (List PyVal)
  | [] => some []
  | (k, v) :: rest =>
    match v with
    | .str s => (encodeHeaderItems rest).map (fun tl => .list [.bytes k, .bytes s] :: tl)
    | _ => Option.none

/-- `WebSocket.fetch` (`mangum/websockets.py`): fetch the serialized scope
from the backend, `json.loads` it (the identity on the stored normal
form), read `scope["query_string"]` and `scope["headers"]`, re-encode a
truthy headers dict as a list of `[key-bytes, value-bytes]` pairs, and
update the scope with the encoded headers and the byte-encoded query
string.  The result is the `self.scope` the cycle engine then uses. -/
def WebSocket.fetch (mediumOk : Bool) (connection_id : String) (st : Store) :
    Except Err PyVal :=
  match DynamoDBBackend.fetch mediumOk connection_id st with
  | .error e => .error e
  | .ok stored =>
    match stored with
    | .dict scope =>
      match dictGet "query_string" scope with
      | Option.none => .error (.keyError "query_string")
      | some query_string =>
        match dictGet "headers" scope with
        | Option.none => .error (.keyError "headers")
        | some headers0 =>
          let headersResult : Except Err PyVal :=
            if pyTruthy headers0 then
              match headers0 with
              | .dict items =>
                match encodeHeaderItems items with
                | some encoded => .ok (.list encoded)
                | Option.none =>
                  .error (.attributeError "header value has no attribute encode")
              | _ => .error (.attributeError "headers object has no attribute items")
            else .ok headers0
          match headersResult with
          | .error e => .error e
          | .ok headers1 =>
            match query_string with
            | .str q =>
              .ok (.dict (dictSet "query_string" (.bytes q)
                    (dictSet "headers" headers1 scope)))
            | _ =>
              .error (.attributeError "query_string object has no attribute encode")
    | _ => .error (.typeError "scope is not a dict")

/-- `WebSocket.delete` (`mangum/websockets.py`): delegate to the
backend. -/
def WebSocket.delete (mediumOk : Bool) (connection_id : String) (st : Store) :
    (Except Err Unit) × Store :=
  DynamoDBBackend.delete mediumOk connection_id st

/-- The answer of the API Gateway client-management transport to one
`post_to_connection` call: success, or an API error response
(`botocore.exceptions.ClientError`) carrying an error code and the HTTP
status found in its `ResponseMetadata`. -/
inductive RelayOutcome where
  | success
  | clientError (code : String) (httpStatus : Option Nat)
deriving DecidableEq

/-- `WebSocket.post_to_connection` (`mangum/websockets.py`): relay one
outbound message; on a `ClientError` whose HTTP status is 410 ("gone"),
delete the stored scope for this connection and return normally; on any
other `ClientError`, re-raise as `WebSocketError` without touching the
store. -/
def WebSocket.post_to_connection (mediumOk : Bool) (connection_id : String)
    (outcome : RelayOutcome) (st : Store) : (Except Err Unit) × Store :=
  match outcome with
  | .success => (.ok (), st)
  | .clientError code httpStatus =>
    if httpStatus == some 410 then WebSocket.delete mediumOk connection_id st
    else (.error (.websocketError code), st)

/-- Setting a key and reading it back yields the new value. -/
theorem dictGet_dictSet_self (k : String) (v : PyVal) (kvs : List (String × PyVal)) :
    dictGet k (dictSet k v kvs) = some v := by
  induction kvs with
  | nil => simp [dictSet, dictGet]
  | cons p kvs ih =>
    obtain ⟨k', v'⟩ := p
    by_cases h : k' = k
    · subst h
      simp [dictSet, dictGet]
    · have hne : k ≠ k' := fun he => h he.symm
      simp [dictSet, dictGet, h, hne, ih]

/-- Setting one key leaves every other key's value unchanged. -/
theorem dictGet_dictSet_ne (k k' : String) (v : PyVal) (kvs : List (String × PyVal))
    (h : k ≠ k') :
    dictGet k (dictSet k' v kvs) = dictGet k kvs := by
  induction kvs with
  | nil => simp [dictSet, dictGet, h]
  | cons p kvs ih =>
    obtain ⟨k0, v0⟩ := p
    by_cases h0 : k0 = k'
    · subst h0
      simp [dictSet, dictGet, h]
    · simp [dictSet, dictGet, h0, ih]

/-- The entries of a CONNECT-time initial scope as `Mangum.handle_ws`
builds it for a connection with one `host` header and an empty query
string (server/client address pairs are Python tuples). -/
def sampleScopeKvs : List (String × PyVal) :=
  [("type", .str "websocket"),
   ("path", .str "/"),
   ("headers", .dict [("host", .str "example.com")]),
   ("raw_path", .none),
   ("root_path", .str ""),
   ("scheme", .str "wss"),
   ("query_string", .str ""),
   ("server", .tuple [.str "example.com", .int 80]),
   ("client", .tuple [.str "127.0.0.1", .int 0])]

/-- The CONNECT-time initial scope built from `sampleScopeKvs`. -/
def sampleScope : PyVal := .dict sampleScopeKvs

/-- The entries of the scope `WebSocket.fetch` actually returns after
`sampleScope` was stored: headers re-encoded as a byte-pair list, the
query string byte-encoded, tuples canonicalized to lists by the JSON
round trip. -/
def sampleScopeFetchedKvs : List (String × PyVal) :=
  [("type", .str "websocket"),
   ("path", .str "/"),
   ("headers", .list [.list [.bytes "host", .bytes "example.com"]]),
   ("raw_path", .none),
   ("root_path", .str ""),
   ("scheme", .str "wss"),
   ("query_string", .bytes ""),
   ("server", .list [.str "example.com", .int 80]),
   ("client", .list [.str "127.0.0.1", .int 0])]

/-- The scope `WebSocket.fetch` returns for `sampleScope`. -/
def sampleScopeFetched : PyVal := .dict sampleScopeFetchedKvs

/-- The JSON normal form of `sampleScopeKvs` (tuples become lists); this
is what the backend stores for `sampleScope`. -/
def sampleScopeNormKvs : List (String × PyVal) :=
  [("type", .str "websocket"),
   ("path", .str "/"),
   ("headers", .dict [("host", .str "example.com")]),
   ("raw_path", .none),
   ("root_path", .str ""),
   ("scheme", .str "wss"),
   ("query_string", .str ""),
   ("server", .list [.str "example.com", .int 80]),
   ("client", .list [.str "127.0.0.1", .int 0])]

/-- C1: counterexample — `create("abc", sampleScope)` succeeds, but
`fetch("abc")` returns `sampleScopeFetched`, which is not equal to the
stored scope: already the `query_string` field itself comes back as the
bytes value `b""` where the stored scope holds the string `""` (and the
headers dict comes back as an encoded pair list), so the round trip does
not preserve every field up to equality. -/
theorem C1_roundtrip_counterexample :
    (WebSocket.create true "abc" sampleScope []).1 = .ok () ∧
    WebSocket.fetch true "abc" (WebSocket.create true "abc" sampleScope []).2
      = .ok sampleScopeFetched ∧
    dictGet "query_string" sampleScopeFetchedKvs = some (.bytes "") ∧
    dictGet "query_string" sampleScopeKvs = some (.str "") ∧
    PyVal.bytes "" ≠ PyVal.str "" ∧
    sampleScopeFetched ≠ sampleScope := by
  refine ⟨rfl, rfl, rfl, rfl, by simp, ?_⟩
  simp [sampleScopeFetched, sampleScope, sampleScopeFetchedKvs, sampleScopeKvs]

/-- C1 (amended): for every connection id `c` and JSON-serializable scope
`s` with a string `query_string` field and a string-valued headers dict,
`create(c, s)` then `fetch(c)` returns the JSON normalization of `s`
(tuples canonicalized to lists) with exactly two fields re-encoded —
`headers` becomes the list of `[key-bytes, value-bytes]` pairs when the
stored headers dict is non-empty, and `query_string` becomes the byte
encoding of the stored string — and every other field is returned
unchanged.  The stored information is preserved, but not as equal Python
values. -/
theorem C1_roundtrip_amended (c : String) (st : Store) (s : PyVal)
    (kvs hs : List (String × PyVal)) (q : String) (encoded : List PyVal)
    (habs : dictGet c st = Option.none)
    (hnorm : jsonNorm s = some (.dict kvs))
    (hq : dictGet "query_string" kvs = some (.str q))
    (hh : dictGet "headers" kvs = some (.dict hs))
    (henc : encodeHeaderItems hs = some encoded) :
    (WebSocket.create true c s st).1 = .ok () ∧
    WebSocket.fetch true c (WebSocket.create true c s st).2
      = .ok (.dict (dictSet "query_string" (.bytes q)
          (dictSet "headers" (if pyTruthy (.dict hs) then .list encoded else .dict hs)
            kvs))) ∧
    (∀ k : String, k ≠ "query_string" → k ≠ "headers" →
      dictGet k (dictSet "query_string" (.bytes q)
          (dictSet "headers" (if pyTruthy (.dict hs) then .list encoded else .dict hs)
            kvs))
        = dictGet k kvs) := by
  have hcreate : WebSocket.create true c s st = (.ok (), (c, .dict kvs) :: st) := by
    simp [WebSocket.create, hnorm, DynamoDBBackend.create, habs]
  refine ⟨by rw [hcreate], ?_, ?_⟩
  · rw [hcreate]
    by_cases ht : pyTruthy (.dict hs) = true
    · simp [WebSocket.fetch, DynamoDBBackend.fetch, dictGet, hq, hh, ht, henc]
    · simp only [Bool.not_eq_true] at ht
      simp [WebSocket.fetch, DynamoDBBackend.fetch, dictGet, hq, hh, ht, henc]
  · intro k hk1 hk2
    rw [dictGet_dictSet_ne k "query_string" _ _ hk1,
      dictGet_dictSet_ne k "headers" _ _ hk2]

theorem C1_roundtrip_amended_witness :
    (WebSocket.create true "abc" sampleScope []).1 = .ok () ∧
    WebSocket.fetch true "abc" (WebSocket.create true "abc" sampleScope []).2
      = .ok sampleScopeFetched := by
  have h := C1_roundtrip_amended "abc" [] sampleScope sampleScopeNormKvs
    [("host", PyVal.str "example.com")] ""
    [PyVal.list [PyVal.bytes "host", PyVal.bytes "example.com"]]
    rfl rfl rfl rfl rfl
  exact ⟨h.1, h.2.1⟩

/-- C3: for every outbound message relayed through `post_to_connection`,
a "gone" answer (HTTP 410) from the client-management transport makes the
connection delete its own stored scope and return without raising any
error, while an answer with any other status raises `WebSocketError` and
leaves the stored scope untouched. -/
theorem C3_post_gone_self_delete (c code : String) (st : Store)
    (httpStatus : Option Nat) :
    (WebSocket.post_to_connection true c (.clientError code (some 410)) st
      = (.ok (), dictDelete c st)) ∧
    (httpStatus ≠ some 410 →
      WebSocket.post_to_connection true c (.clientError code httpStatus) st
        = (.error (.websocketError code), st)) := by
  constructor
  · rfl
  · intro h
    simp [WebSocket.post_to_connection, h]

theorem C3_post_gone_self_delete_witness :
    (WebSocket.post_to_connection true "abc" (.clientError "GoneException" (some 410))
        [("abc", PyVal.str "s")] = (.ok (), [])) ∧
    WebSocket.post_to_connection true "abc" (.clientError "AccessDeniedException" (some 403))
        [("abc", PyVal.str "s")]
      = (.error (.websocketError "AccessDeniedException"), [("abc", PyVal.str "s")]) :=
  ⟨(C3_post_gone_self_delete "abc" "GoneException" [("abc", PyVal.str "s")] (some 403)).1,
   (C3_post_gone_self_delete "abc" "AccessDeniedException" [("abc", PyVal.str "s")]
      (some 403)).2 (by decide)⟩

/-- C4: backend dispatch at construction, evaluated on each tag.  The
`"dynamodb"` tag selects the DynamoDB backend and succeeds, and an
unknown tag fails with `WebSocketError`; but — because the `"dynamodb"`
test is a separate `if` statement whose `else` also runs after the
`"sqlite3"` branch has already assigned the SQLite backend — the
`"sqlite3"` tag does not succeed: construction raises
`WebSocketError "Invalid backend specified: sqlite3"`, contrary to the
dispatch's evident intent. -/
theorem C4_backend_selection :
    WebSocket.postInit
        (some [("backend", .str "dynamodb"), ("table_name", .str "connections")])
      = .ok (.dynamodb, [("table_name", .str "connections")]) ∧
    WebSocket.postInit
        (some [("backend", .str "sqlite3"), ("file_path", .str "db.sqlite3")])
      = .error (.websocketError "Invalid backend specified: sqlite3") ∧
    WebSocket.postInit (some [("backend", .str "redis")])
      = .error (.websocketError "Invalid backend specified: redis") :=
  ⟨rfl, rfl, rfl⟩

/-- C9: constructing a `WebSocket` mutates the caller-supplied
`ws_config`: `__post_init__` pops the `"backend"` key, so after a
successful construction the config no longer contains `"backend"` and a
second construction from it fails; and any `ws_config` with no
`"backend"` key fails at construction with an (uncaught) `KeyError`, not
a `WebSocketError`. -/
theorem C9_ws_config_mutation (cfg rest : List (String × PyVal)) (sel : BackendSel)
    (h : WebSocket.postInit (some cfg) = .ok (sel, rest)) :
    dictGet "backend" rest = Option.none ∧
    WebSocket.postInit (some rest) = .error (.keyError "backend") ∧
    ∀ cfg2 : List (String × PyVal), dictGet "backend" cfg2 = Option.none →
      WebSocket.postInit (some cfg2) = .error (.keyError "backend") := by
  have general : ∀ cfg2 : List (String × PyVal),
      dictGet "backend" cfg2 = Option.none →
      WebSocket.postInit (some cfg2) = .error (.keyError "backend") := by
    intro cfg2 h2
    simp [WebSocket.postInit, dictPop, h2]
  have hrest : rest = dictDelete "backend" cfg := by
    cases hg : dictGet "backend" cfg with
    | none => simp [WebSocket.postInit, dictPop, hg] at h
    | some v =>
      simp only [WebSocket.postInit, dictPop, hg] at h
      by_cases hb : PyVal.beq v (.str "dynamodb") = true
      · rw [if_pos hb] at h
        simp only [Except.ok.injEq, Prod.mk.injEq] at h
        exact h.2.symm
      · rw [if_neg hb] at h
        simp at h
  have hget : dictGet "backend" rest = Option.none := by
    rw [hrest]
    exact dictGet_dictDelete_self "backend" cfg
  exact ⟨hget, general rest hget, general⟩

theorem C9_ws_config_mutation_witness :
    dictGet "backend" [("table_name", PyVal.str "connections")] = Option.none ∧
    WebSocket.postInit (some [("table_name", PyVal.str "connections")])
      = .error (.keyError "backend") := by
  have h := C9_ws_config_mutation
    [("backend", PyVal.str "dynamodb"), ("table_name", PyVal.str "connections")]
    [("table_name", PyVal.str "connections")] .dynamodb (by rfl)
  exact ⟨h.1, h.2.1⟩

/-- Python truthiness of an optional string (`None` and `""` are
falsy). -/
def truthyStr : Option String → Bool
  | Option.none => false
  | some s => !(s == "")

/-- `self.app_ws_path or "/"` in `Mangum.handle_ws`. -/
def pathOr (app_ws_path : Option String) : String :=
  match app_ws_path with
  | some s => if s == "" then "/" else s
  | Option.none => "/"

/-- The configuration guard at the top of `Mangum.handle_ws`
(`mangum/adapter.py`): `dynamodb_region` falls back to the `AWS_REGION`
environment variable, and the guard raises `WebSocketError` when
`not any([dynamodb_region, dynamodb_table_name])` — that is, only when
*both* values are falsy. -/
def handle_ws_config_check
    (dynamodb_region dynamodb_table_name envAwsRegion : Option String) :
    Except Err Unit :=
  let region := if truthyStr dynamodb_region then dynamodb_region else envAwsRegion
  if !(truthyStr region || truthyStr dynamodb_table_name) then
    .error (.websocketError
      "The `dynamodb_region` and `dynamodb_table_name` are required.")
  else .ok ()

/-- The first message the MESSAGE branch of `handle_ws` enqueues:
`websocket.connect`. -/
def wsConnectMessage : PyVal := .dict [("type", .str "websocket.connect")]

/-- The second message the MESSAGE branch of `handle_ws` enqueues:
`websocket.receive` with the invocation body as its text payload. -/
def wsReceiveMessage (path body : String) : PyVal :=
  .dict [("type", .str "websocket.receive"), ("path", .str path),
         ("bytes", .none), ("text", .str body)]

/-- Modelled from the spec: `adapter.py` imports its store-backed
connection facade from `mangum.connections`, which is not among the
available sources.  Per the spec, construction of the durable networked
backend "verifies the target exists at construction time, failing fast
with a configuration error if not" (the `describe_table` call of
`DynamoDBBackend.__post_init__`, whose `ClientError` is wrapped in
`WebSocketError`): construction succeeds exactly when the medium is
reachable. -/
def wsConstruct (mediumOk : Bool) : Except Err Unit :=
  if mediumOk then .ok ()
  else .error (.websocketError "An error occurred (describe_table)")

/-- The MESSAGE branch of `Mangum.handle_ws` (`mangum/adapter.py`):
construct the WebSocket for the connection id and restore its scope
inside a `try/except WebSocketError` that turns the failure into a
`statusCode 500` response (modelled as the status alone) without running
the cycle; otherwise run the ASGI cycle after enqueuing
`websocket.connect` and the `websocket.receive` carrying the event body.
`cycle` abstracts `WebSocketCycle(websocket, ...)(self.app)`
(`mangum/protocols/websockets.py` is not among the available sources);
the third component of the result is the queue handed to it,
`Option.none` when the application is never invoked.  Modelled from the
spec: the restore step is the spec's `resume()` operation of the
connection facade (`mangum.connections`, not among the available
sources), realised by `WebSocket.fetch`. -/
def Mangum.handle_ws_message (mediumOk : Bool) (app_ws_path : Option String)
    (cycle : PyVal → List PyVal → Nat) (connection_id : String) (body : String)
    (st : Store) : (Except Err Nat) × Store × Option (List PyVal) :=
  match wsConstruct mediumOk with
  | .error (.websocketError _) => (.ok 500, st, Option.none)
  | .error e => (.error e, st, Option.none)
  | .ok _ =>
    match WebSocket.fetch mediumOk connection_id st with
    | .error (.websocketError _) => (.ok 500, st, Option.none)
    | .error e => (.error e, st, Option.none)
    | .ok scope =>
      let queue := [wsConnectMessage, wsReceiveMessage (pathOr app_ws_path) body]
      (.ok (cycle scope queue), st, some queue)

/-- The DISCONNECT branch of `Mangum.handle_ws` (`mangum/adapter.py`):
construct the WebSocket and delete the stored scope with *no* surrounding
`try/except`, then return the `statusCode 200` response prepared at the
top of `handle_ws`.  Modelled from the spec: the delete is the spec's
`terminate()` operation of the connection facade (`mangum.connections`,
not among the available sources), realised by `WebSocket.delete`. -/
def Mangum.handle_ws_disconnect (mediumOk : Bool) (connection_id : String)
    (st : Store) : (Except Err Nat) × Store :=
  match wsConstruct mediumOk with
  | .error e => (.error e, st)
  | .ok _ =>
    match WebSocket.delete mediumOk connection_id st with
    | (.ok _, st') => (.ok 200, st')
    | (.error e, st') => (.error e, st')

/-- C6: for every MESSAGE event whose connection id has no stored scope,
`handle_ws` returns a `statusCode 500` response, never invokes the
application, enqueues no messages and leaves the store untouched; and
only when the scope fetch succeeds is the cycle run, with the queue
holding `websocket.connect` followed by the inbound data message. -/
theorem C6_message_requires_scope (cycle : PyVal → List PyVal → Nat)
    (app_ws_path : Option String) (connection_id body : String) (st : Store) :
    (dictGet connection_id st = Option.none →
      Mangum.handle_ws_message true app_ws_path cycle connection_id body st
        = (.ok 500, st, Option.none)) ∧
    (∀ scope, WebSocket.fetch true connection_id st = .ok scope →
      Mangum.handle_ws_message true app_ws_path cycle connection_id body st
        = (.ok (cycle scope
              [wsConnectMessage, wsReceiveMessage (pathOr app_ws_path) body]),
           st,
           some [wsConnectMessage, wsReceiveMessage (pathOr app_ws_path) body])) := by
  constructor
  · intro h
    have hf : WebSocket.fetch true connection_id st
        = .error (connectionNotFound connection_id) := by
      simp [WebSocket.fetch, DynamoDBBackend.fetch, h]
    simp [Mangum.handle_ws_message, wsConstruct, hf, connectionNotFound]
  · intro scope hs
    simp [Mangum.handle_ws_message, wsConstruct, hs]

theorem C6_message_requires_scope_witness :
    Mangum.handle_ws_message true Option.none (fun _ _ => 200) "abc" "ping" []
      = (.ok 500, [], Option.none) :=
  (C6_message_requires_scope (fun _ _ => 200) Option.none "abc" "ping" []).1 (by rfl)

/-- C7: the configuration guard of `handle_ws`, evaluated.  With both the
region (after the environment fallback) and the table name missing it
raises `WebSocketError`; but with only one of the two supplied — the
table name still missing, or the region still missing — it passes,
because the source tests `not any([...])` although its own error message
(and the spec) require both parameters.  So `handle_ws` does not fail
fast whenever *either* required backend parameter is missing, only when
both are. -/
theorem C7_config_guard_partial :
    handle_ws_config_check Option.none Option.none Option.none
      = .error (.websocketError
          "The `dynamodb_region` and `dynamodb_table_name` are required.") ∧
    handle_ws_config_check (some "us-east-1") Option.none Option.none = .ok () ∧
    handle_ws_config_check Option.none Option.none (some "us-east-1") = .ok () ∧
    handle_ws_config_check Option.none (some "connections") Option.none = .ok () :=
  ⟨rfl, rfl, rfl, rfl⟩

/-- C10: for every DISCONNECT event, `handle_ws` returns the
`statusCode 200` response unconditionally once the delete succeeds —
whether or not a scope was stored — and, since neither the construction
nor the delete is wrapped in an error handler, a store failure during
DISCONNECT propagates as an uncaught exception out of the handler instead
of becoming a `statusCode 500` response the way CONNECT and MESSAGE
failures do. -/
theorem C10_disconnect_unguarded (connection_id : String) (st : Store) :
    Mangum.handle_ws_disconnect true connection_id st
      = (.ok 200, dictDelete connection_id st) ∧
    Mangum.handle_ws_disconnect false connection_id st
      = (.error (.websocketError "An error occurred (describe_table)"), st) :=
  ⟨rfl, rfl⟩
